import Mathlib

/-!
Shallow embedding of `src/agent.py` (Singhajitman/sage-agent): a Flask voice
assistant with one processing endpoint `POST /process_audio`.  The three cloud
collaborators (pydub decode + export, Google STT `recognize`, Gemini
`chat.send_message`, Google TTS `synthesize_speech`) are modelled as oracle
functions returning `Except String _`, where `.error e` stands for a raised
Python exception whose `str()` is `e`.  The process-wide mutable chat history
is threaded explicitly as `AgentState`.  Console `print` calls are collected
into a log list.
-/

/-- A conversational turn, as in the `history=[{"role": ..., "parts": ...}]`
dicts of `agent.py` lines 75-78 and the turns `send_message` appends. -/
structure Turn where
  role : String
  parts : String
deriving DecidableEq, Repr

/-- One recognition alternative of a Google STT result (`alternatives[i]`). -/
structure SpeechAlternative where
  transcript : String
deriving DecidableEq, Repr

/-- One result segment of a Google STT response (`response.results[i]`). -/
structure SpeechResult where
  alternatives : List SpeechAlternative
deriving DecidableEq, Repr

/-- The response of `speech_client.recognize` (`agent.py` line 108). -/
structure RecognizeResponse where
  results : List SpeechResult
deriving DecidableEq, Repr

deriving instance DecidableEq for Except

/-- An uploaded multipart file as seen by the handler: `filename`, the raw
declared Content-Type header value, and the outcome of `audio_file.read()`
(`agent.py` line 91) -- reading the underlying stream can itself raise,
which the embedding keeps as an `Except` oracle value.  The `mimetype` the
handler reads is not this raw header but werkzeug's parsed view of it; see
`UploadedFile.mimetype` below. -/
structure UploadedFile where
  filename : String
  content_type : String
  readResult : Except String (List Nat)
deriving DecidableEq, Repr

/-- The part of a Flask request the handler looks at: `request.files`,
an association list from multipart field names to files. -/
structure HttpRequest where
  files : List (String × UploadedFile)
deriving DecidableEq, Repr

/-- Lookup of a field in `request.files`; `none` models `'audio' not in
request.files` being true. -/
def lookupFile (k : String) : List (String × UploadedFile) → Option UploadedFile
  | [] => none
  | (k2, f) :: rest => if k2 == k then some f else lookupFile k rest

/-- A response body: either a file body streamed by `send_file` with its
mimetype, or a JSON object (flat string-valued, as every body built by
`jsonify` in `agent.py` is) kept as an association list in insertion order. -/
inductive RespBody where
  | fileBody (content : List Nat) (mimetype : String)
  | jsonBody (fields : List (String × String))
deriving DecidableEq, Repr

/-- An HTTP response: status code and body.  `jsonify(...)` alone is status
200; `jsonify(...), 400` / `, 500` carry the explicit status; `send_file`
is status 200. -/
structure HttpResponse where
  status : Nat
  body : RespBody
deriving DecidableEq, Repr

/-- True when the body is a file body served with content type audio/mpeg
(the `send_file(..., mimetype="audio/mpeg")` success path). -/
def isAudioMpeg : RespBody → Bool
  | .fileBody _ m => m == "audio/mpeg"
  | .jsonBody _ => false

/-- True when the body is a JSON object having a field named `k`. -/
def bodyHasField (k : String) : RespBody → Bool
  | .jsonBody fields => fields.any (fun p => p.1 == k)
  | .fileBody _ _ => false

/-- The process-wide state: the Gemini chat session history
(`chat = llm_model.start_chat(history=[...])`, `agent.py` line 75). -/
structure AgentState where
  history : List Turn
deriving DecidableEq, Repr

/-- The overall result of one call of the `process_audio` view function:
either an HTTP response was returned, or an exception escaped the handler
(`raised`), each together with the resulting chat history and the console
lines printed along the way. -/
inductive Outcome where
  | response (resp : HttpResponse) (st : AgentState) (logs : List String)
  | raised (msg : String) (st : AgentState) (logs : List String)
deriving DecidableEq, Repr

/-- Discriminator: did the handler itself produce an HTTP response? -/
def Outcome.isResponse : Outcome → Bool
  | .response _ _ _ => true
  | .raised _ _ _ => false

/-- The cloud collaborators and codec library, as oracles.
`decode` stands for the whole pydub block of `agent.py` lines 95-99
(`AudioSegment.from_file` with the format hint, channel/rate/width
conversion, WAV export); it receives the uploaded bytes and the format
hint and yields the WAV bytes.  `sendMessage` receives the history the
session holds at call time together with the new user text and yields the
model reply text (`llm_response.text`). -/
structure Cloud where
  decode : List Nat → String → Except String (List Nat)
  recognize : List Nat → Except String RecognizeResponse
  sendMessage : List Turn → String → Except String String
  synthesize : String → Except String (List Nat)

/-- Prepend a char to the first piece of a piece list. -/
def consHead (x : Char) : List (List Char) → List (List Char)
  | [] => [[x]]
  | h :: t => (x :: h) :: t

/-- Python `str.split(sep)` for a one-character separator, on char lists:
splits at every occurrence, keeping empty pieces, never returning `[]`. -/
def splitOnChar (c : Char) : List Char → List (List Char)
  | [] => [[]]
  | x :: xs =>
    if x == c then [] :: splitOnChar c xs else consHead x (splitOnChar c xs)

/-- The source-format hint handed to the decoder:
`audio_file.mimetype.split('/')[-1]` (`agent.py` line 95). -/
def formatHint (mimetype : String) : String :=
  ⟨(splitOnChar '/' mimetype.data).getLastD []⟩

/-- Python `str.lower()` restricted to the ASCII mapping, as a char-list map. -/
def lowerStr (s : String) : String :=
  ⟨s.data.map Char.toLower⟩

/-- Python `str.strip()` on a char list: drop whitespace at both ends. -/
def stripWs (l : List Char) : List Char :=
  ((l.dropWhile Char.isWhitespace).reverse.dropWhile Char.isWhitespace).reverse

/-- werkzeug's parsing of a declared Content-Type header
(`parse_options_header(value)[0].lower()`): keep only the part before the
first ';' (discarding the content-type parameters), strip surrounding
whitespace, and lowercase (ASCII mapping, as `lowerStr`). -/
def parsedMimetype (content_type : String) : String :=
  lowerStr ⟨stripWs (content_type.data.takeWhile (fun c => c != ';'))⟩

/-- werkzeug `FileStorage.mimetype`, the property `agent.py` line 95 reads:
the parsed Content-Type, parameters stripped and lowercased -- not the raw
declared header. -/
def UploadedFile.mimetype (f : UploadedFile) : String :=
  parsedMimetype f.content_type

/-- Char-list prefix test (structural, used by the substring test). -/
def charsHasPre : List Char → List Char → Bool
  | [], _ => true
  | _ :: _, [] => false
  | p :: ps, c :: cs => p == c && charsHasPre ps cs

/-- Char-list substring occurrence test: `charsContains pat s` is true when
`pat` occurs contiguously inside `s`. -/
def charsContains (pat : List Char) : List Char → Bool
  | [] => charsHasPre pat []
  | c :: rest => charsHasPre pat (c :: rest) || charsContains pat rest

/-- Python's `pat in s` substring operator. -/
def strContains (s pat : String) : Bool :=
  charsContains pat.data s.data

/-- Console line of `agent.py` line 126. -/
def orderLine : String := "--- Action: Food order placed! ---"

/-- Console line of `agent.py` line 128. -/
def bookingLine : String := "--- Action: Table booking confirmed! ---"

/-- The action logger (`agent.py` lines 125-128): case-insensitive substring
checks on the reply text, each match printing one console line. -/
def actionLogs (chefbot_text : String) : List String :=
  (if strContains (lowerStr chefbot_text) "order placed" then [orderLine] else []) ++
  (if strContains (lowerStr chefbot_text) "table confirmed"
      || strContains (lowerStr chefbot_text) "booking confirmed"
   then [bookingLine] else [])

/-- Console line of `agent.py` line 116. -/
def customerSaidLine (customer_text : String) : String :=
  "Customer said: \"" ++ customer_text ++ "\""

/-- Console line of `agent.py` line 122. -/
def chefbotRepliedLine (chefbot_text : String) : String :=
  "ChefBot replied: \"" ++ chefbot_text ++ "\""

/-- Console line of `agent.py` line 152. -/
def errorLine (e : String) : String :=
  "An error occurred: " ++ e

/-- The canned reply of the empty-transcript path (`agent.py` line 114). -/
def didntCatchText : String :=
  "I didn\x27t catch that. Could you please repeat?"

/-- The transcript-assembly loop of `agent.py` lines 109-111:
`customer_text = ""` then `customer_text += result.alternatives[0].transcript`
over the results in order; indexing an empty `alternatives` list raises
an IndexError. -/
def concatLoop (acc : String) : List SpeechResult → Except String String
  | [] => .ok acc
  | r :: rs =>
    match r.alternatives with
    | [] => .error "list index out of range"
    | a :: _ => concatLoop (acc ++ a.transcript) rs

/-- The body of the `try:` block of `agent.py` lines 93-149, given the already
read bytes and the declared mimetype.  Returns the `Except` outcome of the
block (`.error e` = an exception reached the `except` clause), the chat
history after the block, and the console lines printed inside it. -/
def tryBody (cloud : Cloud) (st : AgentState) (audio_bytes : List Nat)
    (mimetype : String) : Except String HttpResponse × AgentState × List String :=
  match cloud.decode audio_bytes (formatHint mimetype) with
  | .error e => (.error e, st, [])
  | .ok wav =>
    match cloud.recognize wav with
    | .error e => (.error e, st, [])
    | .ok resp =>
      match concatLoop "" resp.results with
      | .error e => (.error e, st, [])
      | .ok customer_text =>
        if customer_text = "" then
          (.ok ⟨200, .jsonBody [("text", didntCatchText), ("audio", "")]⟩, st, [])
        else
          match cloud.sendMessage st.history customer_text with
          | .error e => (.error e, st, [customerSaidLine customer_text])
          | .ok chefbot_text =>
            let st2 : AgentState :=
              ⟨st.history ++ [⟨"user", customer_text⟩, ⟨"model", chefbot_text⟩]⟩
            let logs2 := customerSaidLine customer_text ::
              chefbotRepliedLine chefbot_text :: actionLogs chefbot_text
            match cloud.synthesize chefbot_text with
            | .error e => (.error e, st2, logs2)
            | .ok mp3 =>
              (.ok ⟨200, .fileBody mp3 "audio/mpeg"⟩, st2, logs2)

/-- The `process_audio` view function (`agent.py` lines 85-153).  The missing
`audio` field check and `audio_file.read()` happen before the `try:` block,
so a read failure escapes as `Outcome.raised`; an exception inside the block
is converted by the `except` clause into a 500 JSON error response. -/
def process_audio (cloud : Cloud) (st : AgentState) (req : HttpRequest) : Outcome :=
  match lookupFile "audio" req.files with
  | none => .response ⟨400, .jsonBody [("error", "No audio file provided")]⟩ st []
  | some audio_file =>
    match audio_file.readResult with
    | .error e => .raised e st []
    | .ok audio_bytes =>
      match tryBody cloud st audio_bytes audio_file.mimetype with
      | (.ok resp, st2, logs) => .response resp st2 logs
      | (.error e, st2, logs) =>
        .response ⟨500, .jsonBody [("error", e)]⟩ st2 (logs ++ [errorLine e])

/-- The persona block `SYSTEM_PROMPT` of `agent.py` lines 37-72. -/
def SYSTEM_PROMPT : String :=
  "\nYou are \"Ross,\" a friendly and efficient AI assistant for \"The Hungry Dragon\" restaurant.\nYour primary goal is to help customers with orders, table bookings, and provide information about the restaurant and menu.\n\n**Here\x27s the menu information:**\n* **Pizzas:** Pepperoni ($15), Margherita ($14), Veggie ($16)\n* **Pastas:** Spaghetti Carbonara ($12), Fettuccine Alfredo ($13)\n* **Salads:** Garden Salad ($10), Caesar Salad ($11)\n* **Special of the Day:** Dragon\x27s Breath Chili ($18)\n* **Drinks:** Water ($2), Soda ($3), Juice ($4)\n\n**Restaurant Information:**\n* **Opening Hours:** 11:00 AM to 10:00 PM daily.\n* **Address:** 123 Main Street, Flavorville.\n* **Phone:** (555) 123-4567.\n* **Cuisine Type:** American with a fiery twist.\n* **Atmosphere:** Cozy, rustic, and family-friendly.\n\n**Booking Rules:**\n* You can book tables for groups of 1 to 10 people.\n* Always confirm date, time, and number of guests.\n* Be aware of busy times (7 PM - 9 PM are often fully booked). If busy, suggest alternative times.\n\n**Your Behavior:**\n* Be polite, helpful, and clear.\n* If you need more information (e.g., specific order items, booking details), politely ask clarifying questions.\n* When confirming an order or booking, summarize the details clearly.\n* If a customer tries to order something not on the menu, politely say \"I\x27m sorry, that item is not on our menu.\"\n* Do not try to process payments. If a customer asks, say \"You can pay at the counter when you pick up your order or after your meal.\"\n* Simulate actions: If an order or booking is confirmed, simply state that it has been \"placed\" or \"confirmed\" and print a message to the console on the backend server.\n\n**Examples of interactions:**\n* Customer: \"I want to order a pizza.\" -> ChefBot: \"Which pizza would you like? Pepperoni, Margherita, or Veggie?\"\n* Customer: \"Book a table for 4 tomorrow at 7 PM.\" -> ChefBot: \"Okay, booking a table for 4 people for tomorrow at 7 PM. Is that correct?\"\n* Customer: \"What time do you close?\" -> ChefBot: \"We close at 10:00 PM daily.\"\n"

/-- The canned model greeting seeded into the session (`agent.py` line 77). -/
def GREETING : String :=
  "Hello! I\x27m ChefBot, your AI assistant for The Hungry Dragon restaurant. How can I help you today? Are you looking to order, book a table, or something else?"

/-- The history the chat session is started with (`agent.py` lines 75-78). -/
def initialHistory : List Turn :=
  [⟨"user", SYSTEM_PROMPT⟩, ⟨"model", GREETING⟩]

/-! Concrete fixtures used by witnesses and counterexamples. -/

/-- A well-formed upload whose bytes read successfully. -/
def fileOk : UploadedFile := ⟨"clip.webm", "audio/webm", .ok [1, 2, 3]⟩

/-- A request carrying the `audio` field. -/
def reqOk : HttpRequest := ⟨[("audio", fileOk)]⟩

/-- An upload whose `read()` raises. -/
def fileBadRead : UploadedFile :=
  ⟨"clip.webm", "audio/webm", .error "read of closed file"⟩

/-- A request whose `audio` file fails on `read()`. -/
def reqBadRead : HttpRequest := ⟨[("audio", fileBadRead)]⟩

/-- The process state at startup. -/
def st0 : AgentState := ⟨initialHistory⟩

/-- An STT response with one result whose top alternative is "hi there". -/
def sttHi : RecognizeResponse := ⟨[⟨[⟨"hi there"⟩]⟩]⟩

/-- Oracles for a fully successful pipeline run. -/
def cloudHappy : Cloud :=
  ⟨fun _ _ => .ok [9, 9], fun _ => .ok sttHi,
   fun _ t => .ok ("Echo: " ++ t), fun _ => .ok [7, 7, 7]⟩

/-- Oracles where the pydub decode step raises. -/
def cloudDecFail : Cloud :=
  ⟨fun _ _ => .error "boom", fun _ => .ok ⟨[]⟩,
   fun _ _ => .error "unreachable", fun _ => .error "unreachable"⟩

/-- Oracles where everything succeeds except speech synthesis. -/
def cloudTtsFail : Cloud :=
  ⟨fun _ _ => .ok [9, 9], fun _ => .ok sttHi,
   fun _ t => .ok ("Echo: " ++ t), fun _ => .error "tts unavailable"⟩

/-- Oracles where recognition returns no results (empty transcript). -/
def cloudEmpty : Cloud :=
  ⟨fun _ _ => .ok [9, 9], fun _ => .ok ⟨[]⟩,
   fun _ t => .ok ("Echo: " ++ t), fun _ => .ok [7, 7, 7]⟩

/-- Same decode and recognize oracles as `cloudEmpty`, but chat and TTS
oracles that differ observably. -/
def cloudEmptyB : Cloud :=
  ⟨fun _ _ => .ok [9, 9], fun _ => .ok ⟨[]⟩,
   fun _ _ => .error "llm down", fun _ => .error "tts down"⟩

/-- An upload whose declared Content-Type carries a codec parameter, as a
browser `MediaRecorder` typically declares. -/
def fileOpus : UploadedFile :=
  ⟨"clip.webm", "audio/webm;codecs=opus", .ok [1, 2, 3]⟩

/-- A request whose multipart form data has no field named `audio`. -/
def reqNoAudio : HttpRequest := ⟨[("video", fileOk)]⟩

/-- The state after the one successful `cloudHappy` request from `st0`. -/
def stH : AgentState :=
  ⟨initialHistory ++ [⟨"user", "hi there"⟩, ⟨"model", "Echo: hi there"⟩]⟩

/-- The console lines of the successful `cloudHappy` request. -/
def logsH : List String :=
  [customerSaidLine "hi there", chefbotRepliedLine "Echo: hi there"]

/-- The transcript as the spec describes it: the concatenation of the top
(first) alternative's transcript of each result segment, in result order,
with no separator.  This definition follows the spec's words, to be compared
with `concatLoop`, which follows the source loop. -/
def specTranscript : List SpeechResult → String
  | [] => ""
  | r :: rs => (r.alternatives.headD ⟨""⟩).transcript ++ specTranscript rs

/-! Helper lemmas on the char-list substring test. -/

/-- A prefix test survives mapping a function over both lists. -/
theorem charsHasPre_map (f : Char → Char) (p s : List Char)
    (h : charsHasPre p s = true) : charsHasPre (p.map f) (s.map f) = true := by
  induction p generalizing s with
  | nil => simp [charsHasPre]
  | cons x ps ih =>
    cases s with
    | nil => simp [charsHasPre] at h
    | cons c cs =>
      simp only [charsHasPre, Bool.and_eq_true, beq_iff_eq] at h
      simp only [List.map_cons, charsHasPre, Bool.and_eq_true, beq_iff_eq]
      exact ⟨by rw [h.1], ih cs h.2⟩

/-- A substring occurrence survives mapping a function over both lists. -/
theorem charsContains_map (f : Char → Char) (p s : List Char)
    (h : charsContains p s = true) : charsContains (p.map f) (s.map f) = true := by
  induction s with
  | nil => simpa [charsContains] using charsHasPre_map f p [] h
  | cons c cs ih =>
    simp only [charsContains, Bool.or_eq_true] at h
    rcases h with h | h
    · have := charsHasPre_map f p (c :: cs) h
      simp only [List.map_cons] at this ⊢
      simp [charsContains, this]
    · simp only [List.map_cons]
      simp [charsContains, ih h]

/-- Transitivity of the prefix test. -/
theorem charsHasPre_trans (p q s : List Char)
    (hpq : charsHasPre p q = true) (hqs : charsHasPre q s = true) :
    charsHasPre p s = true := by
  induction p generalizing q s with
  | nil => simp [charsHasPre]
  | cons x ps ih =>
    cases q with
    | nil => simp [charsHasPre] at hpq
    | cons y qs =>
      cases s with
      | nil => simp [charsHasPre] at hqs
      | cons z zs =>
        simp only [charsHasPre, Bool.and_eq_true, beq_iff_eq] at hpq hqs ⊢
        exact ⟨hpq.1.trans hqs.1, ih qs zs hpq.2 hqs.2⟩

/-- A prefix of an occurring pattern occurs as well. -/
theorem charsContains_mono (p q s : List Char)
    (hpq : charsHasPre p q = true) (h : charsContains q s = true) :
    charsContains p s = true := by
  induction s with
  | nil =>
    simp only [charsContains] at h ⊢
    exact charsHasPre_trans p q [] hpq h
  | cons c cs ih =>
    simp only [charsContains, Bool.or_eq_true] at h ⊢
    rcases h with h | h
    · exact Or.inl (charsHasPre_trans p q (c :: cs) hpq h)
    · exact Or.inr (ih h)

/-- A reply containing "Order placed." passes the lowercased
"order placed" check of the action logger. -/
theorem lower_contains_order_placed (reply : String)
    (h : strContains reply "Order placed." = true) :
    strContains (lowerStr reply) "order placed" = true := by
  have h1 := charsContains_map Char.toLower _ _ h
  have e1 : "Order placed.".data.map Char.toLower = "order placed.".data := by decide
  rw [e1] at h1
  exact charsContains_mono _ _ _
    (by decide : charsHasPre "order placed".data "order placed.".data = true) h1

/-! Helper lemmas on the Python-style split. -/

/-- `consHead` of a nonempty list is a cons of the same tail shape. -/
theorem consHead_ne_nil (x : Char) (l : List (List Char)) : consHead x l ≠ [] := by
  cases l <;> simp [consHead]

/-- `consHead` distributes over an append with nonempty left part. -/
theorem consHead_append (x : Char) (l1 l2 : List (List Char)) (h : l1 ≠ []) :
    consHead x (l1 ++ l2) = consHead x l1 ++ l2 := by
  cases l1 with
  | nil => exact absurd rfl h
  | cons hd tl => rfl

/-- `str.split` never returns an empty list. -/
theorem splitOnChar_ne_nil (c : Char) (l : List Char) : splitOnChar c l ≠ [] := by
  cases l with
  | nil => simp [splitOnChar]
  | cons x xs =>
    simp only [splitOnChar]
    split
    · simp
    · exact consHead_ne_nil x (splitOnChar c xs)

/-- Splitting around an explicit separator occurrence splits each side. -/
theorem splitOnChar_append (c : Char) (u v : List Char) :
    splitOnChar c (u ++ c :: v) = splitOnChar c u ++ splitOnChar c v := by
  induction u with
  | nil => simp [splitOnChar]
  | cons x u ih =>
    simp only [List.cons_append, splitOnChar, List.append_eq, ih]
    split
    · simp
    · exact consHead_append x (splitOnChar c u) (splitOnChar c v)
        (splitOnChar_ne_nil c u)

/-- Splitting a separator-free list keeps it whole. -/
theorem splitOnChar_not_mem (c : Char) (v : List Char) (h : c ∉ v) :
    splitOnChar c v = [v] := by
  induction v with
  | nil => rfl
  | cons x xs ih =>
    simp only [List.mem_cons, not_or] at h
    have hx : (x == c) = false := by
      simp only [beq_eq_false_iff_ne, ne_eq]
      exact fun e => h.1 (e ▸ rfl)
    simp [splitOnChar, hx, ih h.2, consHead]

/-- `takeWhile` keeps a list all of whose elements satisfy the predicate. -/
theorem takeWhile_eq_self_of_all (p : Char → Bool) (u : List Char)
    (hu : ∀ x ∈ u, p x = true) : u.takeWhile p = u := by
  induction u with
  | nil => rfl
  | cons x xs ih =>
    have hx := hu x (List.mem_cons_self x xs)
    simp [List.takeWhile, hx, ih (fun y hy => hu y (List.mem_cons_of_mem x hy))]

/-- `takeWhile` stops exactly at the first failing element. -/
theorem takeWhile_append_stop (p : Char → Bool) (c : Char) (u v : List Char)
    (hp : p c = false) (hu : ∀ x ∈ u, p x = true) :
    (u ++ c :: v).takeWhile p = u := by
  induction u with
  | nil => simp [List.takeWhile, hp]
  | cons x xs ih =>
    have hx := hu x (List.mem_cons_self x xs)
    simp [List.takeWhile, hx, ih (fun y hy => hu y (List.mem_cons_of_mem x hy))]

/-- `getLastD` ignores the default on a nonempty list. -/
theorem getLastD_irrel {α : Type} (l : List α) (h : l ≠ []) (a b : α) :
    l.getLastD a = l.getLastD b := by
  cases l with
  | nil => exact absurd rfl h
  | cons y ys => rfl

/-- `getLastD` of an append with nonempty right part. -/
theorem getLastD_append_right {α : Type} (l1 l2 : List α) (d : α) (h : l2 ≠ []) :
    (l1 ++ l2).getLastD d = l2.getLastD d := by
  induction l1 generalizing d with
  | nil => rfl
  | cons x xs ih =>
    rw [List.cons_append, List.getLastD_cons, ih x]
    exact getLastD_irrel l2 h x d

/-! Helper lemmas on the pipeline. -/

/-- The empty-transcript path of the handler: 200 with the canned JSON body,
unchanged history, nothing printed. -/
theorem process_audio_empty_transcript (cloud : Cloud) (st : AgentState)
    (req : HttpRequest) (audio_file : UploadedFile) (audio_bytes wav : List Nat)
    (resp : RecognizeResponse)
    (hl : lookupFile "audio" req.files = some audio_file)
    (hr : audio_file.readResult = .ok audio_bytes)
    (hd : cloud.decode audio_bytes (formatHint audio_file.mimetype) = .ok wav)
    (hs : cloud.recognize wav = .ok resp)
    (hc : concatLoop "" resp.results = .ok "") :
    process_audio cloud st req =
      .response ⟨200, .jsonBody [("text", didntCatchText), ("audio", "")]⟩ st [] := by
  simp [process_audio, tryBody, hl, hr, hd, hs, hc]

/-- Any response the try block itself builds is either the audio success
body or the canned JSON body carrying a `text` field. -/
theorem tryBody_ok_shape (cloud : Cloud) (st st2 : AgentState)
    (audio_bytes : List Nat) (mt : String) (resp : HttpResponse)
    (logs : List String)
    (h : tryBody cloud st audio_bytes mt = (.ok resp, st2, logs)) :
    isAudioMpeg resp.body = true ∨ bodyHasField "text" resp.body = true := by
  simp only [tryBody] at h
  repeat' split at h
  all_goals try simp_all
  all_goals obtain ⟨h1, h2, h3⟩ := h
  all_goals subst h1
  all_goals simp [isAudioMpeg, bodyHasField]

/-- When the try block returns the audio success response, the history has
grown by exactly the user turn and the model turn. -/
theorem tryBody_audio_success_state (cloud : Cloud) (st st2 : AgentState)
    (audio_bytes : List Nat) (mt : String) (resp : HttpResponse)
    (logs : List String)
    (h : tryBody cloud st audio_bytes mt = (.ok resp, st2, logs))
    (haud : isAudioMpeg resp.body = true) :
    ∃ t r, st2.history = st.history ++ [⟨"user", t⟩, ⟨"model", r⟩] := by
  simp only [tryBody] at h
  repeat' split at h
  all_goals try simp_all
  all_goals obtain ⟨h1, h2, h3⟩ := h
  all_goals subst h1
  all_goals subst h2
  all_goals first
    | exact ⟨_, _, rfl⟩
    | simp_all [isAudioMpeg]

/-- The source loop computes the spec's concatenation, for any accumulator,
as long as every result segment has at least one alternative. -/
theorem concatLoop_acc (acc : String) (rs : List SpeechResult)
    (h : ∀ r ∈ rs, r.alternatives ≠ []) :
    concatLoop acc rs = .ok (acc ++ specTranscript rs) := by
  induction rs generalizing acc with
  | nil => simp [concatLoop, specTranscript]
  | cons r rs ih =>
    have hr := h r (List.mem_cons_self r rs)
    cases halt : r.alternatives with
    | nil => exact absurd halt hr
    | cons a as =>
      simp only [concatLoop, halt, specTranscript]
      rw [ih (acc ++ a.transcript) (fun x hx => h x (List.mem_cons_of_mem r hx))]
      simp [List.headD, String.append_assoc]

/-! The claims. -/

/-- C1 (amended): for every request carrying an `audio` multipart field, any
HTTP response the handler returns either is an `audio/mpeg` body, or is a
JSON object containing a `text` field, or is an internal-failure response:
status 500 with a JSON object holding only an `error` field.  (As frozen, the
claim also asserted text-or-audio presence for the internal-failure
responses, which `c1_counterexample` refutes.) -/
theorem c1_response_shape (cloud : Cloud) (st st2 : AgentState)
    (req : HttpRequest) (audio_file : UploadedFile) (resp : HttpResponse)
    (logs : List String)
    (hl : lookupFile "audio" req.files = some audio_file)
    (hresp : process_audio cloud st req = .response resp st2 logs) :
    isAudioMpeg resp.body = true ∨ bodyHasField "text" resp.body = true ∨
      (resp.status = 500 ∧ ∃ e, resp.body = .jsonBody [("error", e)]) := by
  cases hread : audio_file.readResult with
  | error e =>
    simp [process_audio, hl, hread] at hresp
  | ok audio_bytes =>
    rcases htb : tryBody cloud st audio_bytes audio_file.mimetype with ⟨exc, stx, logsx⟩
    cases exc with
    | ok r =>
      simp only [process_audio, hl, hread, htb, Outcome.response.injEq] at hresp
      obtain ⟨h1, h2, h3⟩ := hresp
      subst h1
      rcases tryBody_ok_shape cloud st stx audio_bytes audio_file.mimetype r logsx htb
        with h | h
      · exact Or.inl h
      · exact Or.inr (Or.inl h)
    | error e =>
      simp only [process_audio, hl, hread, htb, Outcome.response.injEq] at hresp
      obtain ⟨h1, h2, h3⟩ := hresp
      subst h1
      exact Or.inr (Or.inr ⟨rfl, e, rfl⟩)

/-- The frozen C1 fails on the code: when the decode step raises, the
response is a 500 JSON object with only an `error` field, which is neither
an `audio/mpeg` body nor a JSON object with a `text` field. -/
theorem c1_counterexample :
    process_audio cloudDecFail st0 reqOk =
      .response ⟨500, .jsonBody [("error", "boom")]⟩ st0 [errorLine "boom"] ∧
    isAudioMpeg (RespBody.jsonBody [("error", "boom")]) = false ∧
    bodyHasField "text" (RespBody.jsonBody [("error", "boom")]) = false :=
  ⟨rfl, rfl, rfl⟩

/-- Witness for C1 at the concrete successful request. -/
theorem c1_response_shape_witness :
    isAudioMpeg (RespBody.fileBody [7, 7, 7] "audio/mpeg") = true ∨
    bodyHasField "text" (RespBody.fileBody [7, 7, 7] "audio/mpeg") = true ∨
    ((200 : Nat) = 500 ∧
      ∃ e, RespBody.fileBody [7, 7, 7] "audio/mpeg" = .jsonBody [("error", e)]) :=
  c1_response_shape cloudHappy st0 stH reqOk fileOk
    ⟨200, .fileBody [7, 7, 7] "audio/mpeg"⟩ logsH rfl rfl

/-- C2 (amended): any exception raised inside the `try:` block -- decoding,
transcript assembly, and every cloud call -- is caught at the outermost
handler and surfaced as HTTP 500 with JSON body containing the exception's
string representation (and the error console line is printed).  (As frozen,
the claim also covered exceptions while reading the uploaded bytes, but
`audio_file.read()` at line 91 runs before the `try:` at line 93, so a read
exception escapes the handler: `c2_counterexample`.) -/
theorem c2_try_exception_caught (cloud : Cloud) (st st2 : AgentState)
    (req : HttpRequest) (audio_file : UploadedFile) (audio_bytes : List Nat)
    (e : String) (logs : List String)
    (hl : lookupFile "audio" req.files = some audio_file)
    (hr : audio_file.readResult = .ok audio_bytes)
    (ht : tryBody cloud st audio_bytes audio_file.mimetype = (.error e, st2, logs)) :
    process_audio cloud st req =
      .response ⟨500, .jsonBody [("error", e)]⟩ st2 (logs ++ [errorLine e]) := by
  simp [process_audio, hl, hr, ht]

/-- The frozen C2 fails on the code: an exception raised by
`audio_file.read()` is not caught by the handler -- no HTTP response with a
JSON error body is produced at all. -/
theorem c2_counterexample :
    process_audio cloudHappy st0 reqBadRead = .raised "read of closed file" st0 [] ∧
    (process_audio cloudHappy st0 reqBadRead).isResponse = false :=
  ⟨rfl, rfl⟩

/-- Witness for C2 with a concrete decode failure. -/
theorem c2_try_exception_caught_witness :
    process_audio cloudDecFail st0 reqOk =
      .response ⟨500, .jsonBody [("error", "boom")]⟩ st0 [errorLine "boom"] :=
  c2_try_exception_caught cloudDecFail st0 st0 reqOk fileOk [1, 2, 3] "boom" []
    rfl rfl rfl

/-- C3: whenever the concatenated recognized transcript is the empty string,
the handler returns HTTP 200 with body exactly
`{"text": "I didn't catch that. Could you please repeat?", "audio": ""}`,
no audio payload, the history unchanged and nothing printed -- the rest of
the pipeline is short-circuited. -/
theorem c3_empty_transcript_response (cloud : Cloud) (st : AgentState)
    (req : HttpRequest) (audio_file : UploadedFile) (audio_bytes wav : List Nat)
    (resp : RecognizeResponse)
    (hl : lookupFile "audio" req.files = some audio_file)
    (hr : audio_file.readResult = .ok audio_bytes)
    (hd : cloud.decode audio_bytes (formatHint audio_file.mimetype) = .ok wav)
    (hs : cloud.recognize wav = .ok resp)
    (hc : concatLoop "" resp.results = .ok "") :
    process_audio cloud st req =
      .response ⟨200, .jsonBody [("text", didntCatchText), ("audio", "")]⟩ st [] :=
  process_audio_empty_transcript cloud st req audio_file audio_bytes wav resp
    hl hr hd hs hc

/-- Witness for C3 with a recognizer returning no results. -/
theorem c3_empty_transcript_response_witness :
    process_audio cloudEmpty st0 reqOk =
      .response ⟨200, .jsonBody [("text", didntCatchText), ("audio", "")]⟩ st0 [] :=
  c3_empty_transcript_response cloudEmpty st0 reqOk fileOk [1, 2, 3] [9, 9] ⟨[]⟩
    rfl rfl rfl rfl rfl

/-- C4: every request whose multipart form data lacks a field named `audio`
receives HTTP 400 with body exactly `{"error": "No audio file provided"}`;
the state is unchanged, nothing is printed, and this holds for every oracle,
so no pipeline step runs. -/
theorem c4_missing_audio_field (cloud : Cloud) (st : AgentState)
    (req : HttpRequest)
    (h : lookupFile "audio" req.files = none) :
    process_audio cloud st req =
      .response ⟨400, .jsonBody [("error", "No audio file provided")]⟩ st [] := by
  simp [process_audio, h]

/-- Witness for C4 at a request with a differently named file field. -/
theorem c4_missing_audio_field_witness :
    process_audio cloudHappy st0 reqNoAudio =
      .response ⟨400, .jsonBody [("error", "No audio file provided")]⟩ st0 [] :=
  c4_missing_audio_field cloudHappy st0 reqNoAudio rfl

/-- C5: on every successful request (one whose response is the `audio/mpeg`
body), the history grows by exactly two entries -- a user turn then a model
turn -- and before the first request the history is the persona-seed pair:
a user-role system-prompt entry and a model-role greeting entry. -/
theorem c5_history_grows_by_two (cloud : Cloud) (st st2 : AgentState)
    (req : HttpRequest) (resp : HttpResponse) (logs : List String)
    (hresp : process_audio cloud st req = .response resp st2 logs)
    (haud : isAudioMpeg resp.body = true) :
    (∃ t r, st2.history = st.history ++ [⟨"user", t⟩, ⟨"model", r⟩] ∧
        st2.history.length = st.history.length + 2) ∧
    initialHistory = [⟨"user", SYSTEM_PROMPT⟩, ⟨"model", GREETING⟩] ∧
    initialHistory.length = 2 := by
  refine ⟨?_, rfl, rfl⟩
  cases hl : lookupFile "audio" req.files with
  | none =>
    simp only [process_audio, hl, Outcome.response.injEq] at hresp
    obtain ⟨h1, h2, h3⟩ := hresp
    subst h1
    simp [isAudioMpeg] at haud
  | some audio_file =>
    cases hread : audio_file.readResult with
    | error e =>
      simp [process_audio, hl, hread] at hresp
    | ok audio_bytes =>
      rcases htb : tryBody cloud st audio_bytes audio_file.mimetype with ⟨exc, stx, logsx⟩
      cases exc with
      | ok r =>
        simp only [process_audio, hl, hread, htb, Outcome.response.injEq] at hresp
        obtain ⟨h1, h2, h3⟩ := hresp
        subst h1
        obtain ⟨t, rr, hh⟩ :=
          tryBody_audio_success_state cloud st stx audio_bytes
            audio_file.mimetype r logsx htb haud
        rw [← h2]
        exact ⟨t, rr, hh, by rw [hh]; simp⟩
      | error e =>
        simp only [process_audio, hl, hread, htb, Outcome.response.injEq] at hresp
        obtain ⟨h1, h2, h3⟩ := hresp
        subst h1
        simp [isAudioMpeg] at haud

/-- Witness for C5 at the concrete successful request. -/
theorem c5_history_grows_by_two_witness :
    (∃ t r, stH.history = st0.history ++ [⟨"user", t⟩, ⟨"model", r⟩] ∧
        stH.history.length = st0.history.length + 2) ∧
    initialHistory = [⟨"user", SYSTEM_PROMPT⟩, ⟨"model", GREETING⟩] ∧
    initialHistory.length = 2 :=
  c5_history_grows_by_two cloudHappy st0 stH reqOk
    ⟨200, .fileBody [7, 7, 7] "audio/mpeg"⟩ logsH rfl rfl

/-- C6: the action logger performs case-insensitive substring checks of the
reply text: a reply containing "Order placed." produces exactly one
order-confirmation console line, and a reply containing none of the three
trigger phrases (case-insensitively) produces no action log line. -/
theorem c6_action_logger :
    (∀ reply : String, strContains reply "Order placed." = true →
        (actionLogs reply).count orderLine = 1) ∧
    (∀ reply : String,
        strContains (lowerStr reply) "order placed" = false →
        strContains (lowerStr reply) "table confirmed" = false →
        strContains (lowerStr reply) "booking confirmed" = false →
        actionLogs reply = []) := by
  constructor
  · intro reply h
    have h2 := lower_contains_order_placed reply h
    cases hb : (strContains (lowerStr reply) "table confirmed"
        || strContains (lowerStr reply) "booking confirmed") with
    | false => simp [actionLogs, h2, hb, orderLine, bookingLine]
    | true => simp [actionLogs, h2, hb, orderLine, bookingLine]
  · intro reply h1 h2 h3
    simp [actionLogs, h1, h2, h3]

/-- Witness for C6 at concrete replies. -/
theorem c6_action_logger_witness :
    (actionLogs "Great! Order placed. Anything else?").count orderLine = 1 ∧
    actionLogs "We close at 10:00 PM daily." = [] :=
  ⟨c6_action_logger.1 "Great! Order placed. Anything else?" (by decide),
   c6_action_logger.2 "We close at 10:00 PM daily." (by decide) (by decide)
     (by decide)⟩

/-- C7: the loop of lines 109-111 computes exactly the concatenation of the
top (first) alternative's transcript of each result segment, in result order,
with no separator (`specTranscript`), whenever every segment has at least one
alternative; and on the success path that concatenation is precisely the text
forwarded to the dialogue session, recorded in the appended user turn. -/
theorem c7_transcript_is_top_alternative_concat :
    (∀ rs : List SpeechResult, (∀ r ∈ rs, r.alternatives ≠ []) →
        concatLoop "" rs = .ok (specTranscript rs)) ∧
    (∀ (cloud : Cloud) (st : AgentState) (req : HttpRequest)
        (audio_file : UploadedFile) (audio_bytes wav mp3 : List Nat)
        (resp : RecognizeResponse) (reply : String),
        lookupFile "audio" req.files = some audio_file →
        audio_file.readResult = .ok audio_bytes →
        cloud.decode audio_bytes (formatHint audio_file.mimetype) = .ok wav →
        cloud.recognize wav = .ok resp →
        (∀ r ∈ resp.results, r.alternatives ≠ []) →
        specTranscript resp.results ≠ "" →
        cloud.sendMessage st.history (specTranscript resp.results) = .ok reply →
        cloud.synthesize reply = .ok mp3 →
        process_audio cloud st req =
          .response ⟨200, .fileBody mp3 "audio/mpeg"⟩
            ⟨st.history ++ [⟨"user", specTranscript resp.results⟩,
              ⟨"model", reply⟩]⟩
            (customerSaidLine (specTranscript resp.results) ::
              chefbotRepliedLine reply :: actionLogs reply)) := by
  constructor
  · intro rs h
    rw [concatLoop_acc "" rs h]
    simp [String.empty_append]
  · intro cloud st req audio_file audio_bytes wav mp3 resp reply
      hl hr hd hs hall hne hm hy
    have hc : concatLoop "" resp.results = .ok (specTranscript resp.results) := by
      rw [concatLoop_acc "" resp.results hall]
      simp [String.empty_append]
    simp [process_audio, tryBody, hl, hr, hd, hs, hc, hne, hm, hy]

/-- Witness for C7 at a concrete two-segment recognition response and at the
concrete successful request. -/
theorem c7_transcript_is_top_alternative_concat_witness :
    concatLoop "" [⟨[⟨"hello "⟩, ⟨"ignored"⟩]⟩, ⟨[⟨"world"⟩]⟩] =
      .ok (specTranscript [⟨[⟨"hello "⟩, ⟨"ignored"⟩]⟩, ⟨[⟨"world"⟩]⟩]) ∧
    process_audio cloudHappy st0 reqOk =
      .response ⟨200, .fileBody [7, 7, 7] "audio/mpeg"⟩
        ⟨st0.history ++ [⟨"user", specTranscript sttHi.results⟩,
          ⟨"model", "Echo: hi there"⟩]⟩
        (customerSaidLine (specTranscript sttHi.results) ::
          chefbotRepliedLine "Echo: hi there" :: actionLogs "Echo: hi there") :=
  ⟨c7_transcript_is_top_alternative_concat.1
      [⟨[⟨"hello "⟩, ⟨"ignored"⟩]⟩, ⟨[⟨"world"⟩]⟩] (by decide),
   c7_transcript_is_top_alternative_concat.2 cloudHappy st0 reqOk fileOk
      [1, 2, 3] [9, 9] [7, 7, 7] sttHi "Echo: hi there"
      rfl rfl rfl rfl (by decide) (by decide) rfl rfl⟩

/-- C8: on the empty-transcript path the session history is left unchanged
(no user turn, no model turn), and the outcome does not depend on the
chat-completion or speech-synthesis oracles at all -- neither service is
invoked. -/
theorem c8_empty_transcript_frame (cloud cloud2 : Cloud) (st : AgentState)
    (req : HttpRequest) (audio_file : UploadedFile) (audio_bytes wav : List Nat)
    (resp : RecognizeResponse)
    (hl : lookupFile "audio" req.files = some audio_file)
    (hr : audio_file.readResult = .ok audio_bytes)
    (hd : cloud.decode audio_bytes (formatHint audio_file.mimetype) = .ok wav)
    (hs : cloud.recognize wav = .ok resp)
    (hc : concatLoop "" resp.results = .ok "")
    (hd2 : cloud2.decode = cloud.decode)
    (hs2 : cloud2.recognize = cloud.recognize) :
    process_audio cloud st req =
      .response ⟨200, .jsonBody [("text", didntCatchText), ("audio", "")]⟩ st [] ∧
    process_audio cloud2 st req = process_audio cloud st req := by
  have h1 := process_audio_empty_transcript cloud st req audio_file audio_bytes
    wav resp hl hr hd hs hc
  have h2 := process_audio_empty_transcript cloud2 st req audio_file audio_bytes
    wav resp hl hr (by rw [hd2]; exact hd) (by rw [hs2]; exact hs) hc
  exact ⟨h1, h2.trans h1.symm⟩

/-- Witness for C8 with two oracle sets differing only in the chat and TTS
services. -/
theorem c8_empty_transcript_frame_witness :
    process_audio cloudEmpty st0 reqOk =
      .response ⟨200, .jsonBody [("text", didntCatchText), ("audio", "")]⟩ st0 [] ∧
    process_audio cloudEmptyB st0 reqOk = process_audio cloudEmpty st0 reqOk :=
  c8_empty_transcript_frame cloudEmpty cloudEmptyB st0 reqOk fileOk [1, 2, 3]
    [9, 9] ⟨[]⟩ rfl rfl rfl rfl rfl rfl rfl

/-- C9: when speech synthesis raises after the chat-completion call
succeeded, the request returns the 500 error response, yet the history keeps
the two newly appended turns -- the error path does not roll back the session
state. -/
theorem c9_error_after_chat_keeps_history (cloud : Cloud) (st : AgentState)
    (req : HttpRequest) (audio_file : UploadedFile) (audio_bytes wav : List Nat)
    (resp : RecognizeResponse) (t reply e : String)
    (hl : lookupFile "audio" req.files = some audio_file)
    (hr : audio_file.readResult = .ok audio_bytes)
    (hd : cloud.decode audio_bytes (formatHint audio_file.mimetype) = .ok wav)
    (hs : cloud.recognize wav = .ok resp)
    (hc : concatLoop "" resp.results = .ok t)
    (hne : t ≠ "")
    (hm : cloud.sendMessage st.history t = .ok reply)
    (hy : cloud.synthesize reply = .error e) :
    process_audio cloud st req =
      .response ⟨500, .jsonBody [("error", e)]⟩
        ⟨st.history ++ [⟨"user", t⟩, ⟨"model", reply⟩]⟩
        ((customerSaidLine t :: chefbotRepliedLine reply :: actionLogs reply) ++
          [errorLine e]) := by
  simp [process_audio, tryBody, hl, hr, hd, hs, hc, hne, hm, hy]

/-- Witness for C9 with a concrete TTS failure. -/
theorem c9_error_after_chat_keeps_history_witness :
    process_audio cloudTtsFail st0 reqOk =
      .response ⟨500, .jsonBody [("error", "tts unavailable")]⟩
        ⟨st0.history ++ [⟨"user", "hi there"⟩, ⟨"model", "Echo: hi there"⟩]⟩
        ((customerSaidLine "hi there" :: chefbotRepliedLine "Echo: hi there" ::
          actionLogs "Echo: hi there") ++ [errorLine "tts unavailable"]) :=
  c9_error_after_chat_keeps_history cloudTtsFail st0 reqOk fileOk [1, 2, 3]
    [9, 9] sttHi "hi there" "Echo: hi there" "tts unavailable"
    rfl rfl rfl rfl rfl (by decide) rfl rfl

/-- C10 (amended): the source-format hint handed to the decoder is the
substring after the last '/' of werkzeug's parsed `mimetype` -- the declared
Content-Type with its parameters stripped and lowercased -- so a declared
type carrying parameters yields the bare subtype: the hint for a declared
"audio/webm;codecs=opus" is "webm", not "webm;codecs=opus".  (As frozen, the
claim asserted the hint keeps the parameter suffix; `c10_counterexample`
refutes that.) -/
theorem c10_hint_is_bare_subtype :
    (∀ pre post : String, '/' ∉ post.data →
        formatHint (pre ++ "/" ++ post) = post) ∧
    (∀ t params : String, ';' ∉ t.data →
        parsedMimetype (t ++ ";" ++ params) = parsedMimetype t) ∧
    fileOpus.mimetype = "audio/webm" ∧
    formatHint fileOpus.mimetype = "webm" := by
  refine ⟨?_, ?_, rfl, rfl⟩
  · intro pre post h
    have hd : (pre ++ "/" ++ post).data = pre.data ++ '/' :: post.data := by
      rw [String.data_append, String.data_append]
      rw [show "/".data = ['/'] from rfl, List.append_assoc]
      rfl
    unfold formatHint
    rw [hd, splitOnChar_append, splitOnChar_not_mem '/' post.data h,
        getLastD_append_right _ _ _ (by simp)]
    rfl
  · intro t params h
    have hd : (t ++ ";" ++ params).data = t.data ++ ';' :: params.data := by
      rw [String.data_append, String.data_append]
      rw [show ";".data = [';'] from rfl, List.append_assoc]
      rfl
    have hu : ∀ x ∈ t.data, (x != ';') = true := by
      intro x hx
      simp only [bne_iff_ne, ne_eq]
      exact fun e => h (e ▸ hx)
    unfold parsedMimetype
    rw [hd, takeWhile_append_stop _ ';' t.data params.data rfl hu,
        takeWhile_eq_self_of_all _ t.data hu]

/-- The frozen C10 fails on the code: werkzeug's `mimetype` strips the
Content-Type parameters, so the hint for a declared "audio/webm;codecs=opus"
is the bare subtype "webm", not "webm;codecs=opus". -/
theorem c10_counterexample :
    fileOpus.content_type = "audio/webm;codecs=opus" ∧
    formatHint fileOpus.mimetype = "webm" ∧
    formatHint fileOpus.mimetype ≠ "webm;codecs=opus" :=
  ⟨rfl, rfl, by decide⟩

/-- Witness for C10 at concrete split and parameter-stripping inputs. -/
theorem c10_hint_is_bare_subtype_witness :
    formatHint ("audio" ++ "/" ++ "webm") = "webm" ∧
    parsedMimetype ("audio/webm" ++ ";" ++ "codecs=opus") =
      parsedMimetype "audio/webm" :=
  ⟨c10_hint_is_bare_subtype.1 "audio" "webm" (by decide),
   c10_hint_is_bare_subtype.2.1 "audio/webm" "codecs=opus" (by decide)⟩
